import Mathlib

/-!
Verification of the matrix-pms authentication / identity-resolution layer.

This file gives a shallow embedding of the auth-relevant parts of the
repository and proves (or refutes) the specification's claims about them:

* `hash_password`, `create_access_token`, `authenticate_user`-style lookup,
  `get_current_user_or_redirect` from `utils/helper_auth.py`;
* `get_current_user`, `require_user` from `utils/helpers.py`;
* `validate_login_form`, `normalize_phone`, `post_login` from
  `routes/login.py`;
* `READ_ONLY_FIELDS`, `update_apartment` from `routes/apartments.py`.

Modelling conventions:

* Time is an `Int` (a Unix timestamp in seconds); `timedelta` values are
  second counts.
* A JWT is modelled symbolically: `TokenV.valid payload key` is a
  structurally well-formed token signed with `key`; `TokenV.malformed raw`
  is a string that does not parse as a JWT.  `jwt_decode` follows PyJWT:
  the signature is verified before the claims, so a bad signature raises
  `InvalidTokenError` (`JwtError.invalidToken`) even when `exp` is also in
  the past, and an `exp` at or before the current time raises
  `ExpiredSignatureError` (`JwtError.expiredSignature`, leeway 0).
* `SECRET_KEY = os.getenv("JWT_SECRET_KEY")` is modelled by passing the
  configured secret `secretKey : String` to every function that reads it.
* `Users.id` is a Postgres UUID; it is modelled by its canonical
  hyphenated string form, and `str(user.id)` is the identity on it.
* Database row lookups (`select ... scalar_one_or_none`) are modelled by
  `List.find?` over an explicit store.
-/

namespace MatrixPMS

/-! ## SHA-256 over `Nat`, modelling `hashlib.sha256(...).hexdigest()` -/

/-- 2^32; all word arithmetic is done modulo this. -/
def M32 : Nat := 4294967296

def add32 (a b : Nat) : Nat := (a + b) % M32

def rotr (n x : Nat) : Nat := (x >>> n) ||| ((x <<< (32 - n)) % M32)

def ch (x y z : Nat) : Nat := (x &&& y) ^^^ ((x ^^^ (M32 - 1)) &&& z)

def maj (x y z : Nat) : Nat := (x &&& y) ^^^ (x &&& z) ^^^ (y &&& z)

def bigSigma0 (x : Nat) : Nat := rotr 2 x ^^^ rotr 13 x ^^^ rotr 22 x

def bigSigma1 (x : Nat) : Nat := rotr 6 x ^^^ rotr 11 x ^^^ rotr 25 x

def smallSigma0 (x : Nat) : Nat := rotr 7 x ^^^ rotr 18 x ^^^ (x >>> 3)

def smallSigma1 (x : Nat) : Nat := rotr 17 x ^^^ rotr 19 x ^^^ (x >>> 10)

/-- The 64 SHA-256 round constants (FIPS 180-4). -/
def shaK : List Nat :=
  [1116352408, 1899447441, 3049323471, 3921009573, 961987163, 1508970993,
   2453635748, 2870763221, 3624381080, 310598401, 607225278, 1426881987,
   1925078388, 2162078206, 2614888103, 3248222580, 3835390401, 4022224774,
   264347078, 604807628, 770255983, 1249150122, 1555081692, 1996064986,
   2554220882, 2821834349, 2952996808, 3210313671, 3336571891, 3584528711,
   113926993, 338241895, 666307205, 773529912, 1294757372, 1396182291,
   1695183700, 1986661051, 2177026350, 2456956037, 2730485921, 2820302411,
   3259730800, 3345764771, 3516065817, 3600352804, 4094571909, 275423344,
   430227734, 506948616, 659060556, 883997877, 958139571, 1322822218,
   1537002063, 1747873779, 1955562222, 2024104815, 2227730452, 2361852424,
   2428436474, 2756734187, 3204031479, 3329325298]

/-- The initial SHA-256 hash state (FIPS 180-4). -/
def initH : List Nat :=
  [0x6a09e667, 0xbb67ae85, 0x3c6ef372, 0xa54ff53a, 0x510e527f, 0x9b05688c, 0x1f83d9ab, 0x5be0cd19]

def nextWord (w : List Nat) : Nat :=
  let n := w.length
  add32 (add32 (w.getD (n - 16) 0) (smallSigma0 (w.getD (n - 15) 0)))
        (add32 (w.getD (n - 7) 0) (smallSigma1 (w.getD (n - 2) 0)))

/-- Extend the 16-word message block by `k` further schedule words. -/
def extendW : List Nat → Nat → List Nat
  | w, 0 => w
  | w, k + 1 => extendW (w ++ [nextWord w]) k

def roundStep (s : Nat × Nat × Nat × Nat × Nat × Nat × Nat × Nat) (kw : Nat × Nat) :
    Nat × Nat × Nat × Nat × Nat × Nat × Nat × Nat :=
  let (a, b, c, d, e, f, g, h) := s
  let t1 := add32 h (add32 (bigSigma1 e) (add32 (ch e f g) (add32 kw.1 kw.2)))
  let t2 := add32 (bigSigma0 a) (maj a b c)
  (add32 t1 t2, a, b, c, add32 d t1, e, f, g)

/-- One SHA-256 compression step on a 16-word block. -/
def compress (hs : List Nat) (block : List Nat) : List Nat :=
  let w := extendW block 48
  match hs with
  | [h0, h1, h2, h3, h4, h5, h6, h7] =>
    let (a, b, c, d, e, f, g, h) :=
      (List.zip shaK w).foldl roundStep (h0, h1, h2, h3, h4, h5, h6, h7)
    [add32 h0 a, add32 h1 b, add32 h2 c, add32 h3 d,
     add32 h4 e, add32 h5 f, add32 h6 g, add32 h7 h]
  | _ => hs

def be64 (n : Nat) : List Nat :=
  [(n >>> 56) % 256, (n >>> 48) % 256, (n >>> 40) % 256, (n >>> 32) % 256,
   (n >>> 24) % 256, (n >>> 16) % 256, (n >>> 8) % 256, n % 256]

/-- SHA-256 padding: a 0x80 byte, zeros to 56 mod 64, and the 64-bit bit length. -/
def padMessage (bytes : List Nat) : List Nat :=
  let len := bytes.length
  let zeros := (119 - (len % 64)) % 64
  bytes ++ [0x80] ++ List.replicate zeros 0 ++ be64 (len * 8)

def bytesToWords : List Nat → List Nat
  | b0 :: b1 :: b2 :: b3 :: rest =>
    (b0 <<< 24 ||| b1 <<< 16 ||| b2 <<< 8 ||| b3) :: bytesToWords rest
  | _ => []

/-- Split a padded byte list into 16-word blocks (fuelled recursion). -/
def toBlocksF : Nat → List Nat → List (List Nat)
  | 0, _ => []
  | _, [] => []
  | fuel + 1, bs => bytesToWords (bs.take 64) :: toBlocksF fuel (bs.drop 64)

def sha256Words (bytes : List Nat) : List Nat :=
  let padded := padMessage bytes
  (toBlocksF padded.length padded).foldl compress initH

def hexDigitChar (n : Nat) : Char :=
  "0123456789abcdef".toList.getD (n % 16) '0'

/-- Big-endian hex rendering of `n` on exactly `d` digits. -/
def toHexPad : Nat → Nat → List Char
  | _, 0 => []
  | n, d + 1 => toHexPad (n / 16) d ++ [hexDigitChar (n % 16)]

def sha256hex (bytes : List Nat) : String :=
  String.mk (List.flatten ((sha256Words bytes).map (fun w => toHexPad w 8)))

/-- UTF-8 encoding of one character, as a list of byte values. -/
def utf8Bytes (c : Char) : List Nat :=
  let n := c.toNat
  if n < 0x80 then [n]
  else if n < 0x800 then [0xC0 ||| (n >>> 6), 0x80 ||| (n &&& 0x3F)]
  else if n < 0x10000 then
    [0xE0 ||| (n >>> 12), 0x80 ||| ((n >>> 6) &&& 0x3F), 0x80 ||| (n &&& 0x3F)]
  else
    [0xF0 ||| (n >>> 18), 0x80 ||| ((n >>> 12) &&& 0x3F),
     0x80 ||| ((n >>> 6) &&& 0x3F), 0x80 ||| (n &&& 0x3F)]

/-- `password.encode("utf-8")`. -/
def strBytes (s : String) : List Nat := s.toList.foldr (fun c acc => utf8Bytes c ++ acc) []

/-- `utils/helper_auth.py` lines 21-24: unsalted single-round SHA-256 hex digest. -/
def hash_password (password : String) : String := sha256hex (strBytes password)

/-! ## JWT issue / verify (`utils/helper_auth.py`, `utils/helpers.py`) -/

/-- The claim set of an issued token: `sub` (string-encoded subject, may be
absent) and `exp` (absolute expiry, seconds). -/
structure Payload where
  sub : Option String
  exp : Int
deriving DecidableEq

/-- A candidate value of the `access_token` cookie.  `valid payload key` is a
structurally well-formed JWT signed with `key`; `malformed raw` is a string
that does not parse as a JWT at all. -/
inductive TokenV where
  | valid (payload : Payload) (key : String)
  | malformed (raw : String)
deriving DecidableEq

/-- The two PyJWT exception classes caught by the resolvers. -/
inductive JwtError where
  | expiredSignature
  | invalidToken
deriving DecidableEq

/-- `jwt.decode(token, key, algorithms=["HS256"])`.  PyJWT verifies the
signature first (mismatch or malformed structure raise `InvalidTokenError`),
then validates `exp` with zero leeway (`exp <= now` raises
`ExpiredSignatureError`). -/
def jwt_decode (t : TokenV) (key : String) (now : Int) : Except JwtError Payload :=
  match t with
  | .malformed _ => .error .invalidToken
  | .valid payload k =>
    if k ≠ key then .error .invalidToken
    else if payload.exp ≤ now then .error .expiredSignature
    else .ok payload

/-- `utils/helper_auth.py` line 19: `60 * 24 * 7  # 7 days` (minutes). -/
def ACCESS_TOKEN_EXPIRE_MINUTES : Int := 60 * 24 * 7

/-- `utils/helper_auth.py` lines 26-30: copy the claims, set
`exp = datetime.now() + (expires_delta or timedelta(minutes=15))`, and sign
with the configured secret.  `sub` is the `"sub"` entry of the `data` dict;
`expires_delta` is in seconds. -/
def create_access_token (sub : Option String) (expires_delta : Option Int)
    (now : Int) (secretKey : String) : TokenV :=
  .valid { sub := sub, exp := now + expires_delta.getD 900 } secretKey

/-! ## Data model and requests -/

/-- `utils/models.py` `Users`, restricted to the columns the auth layer
reads.  `id` is the canonical string form of the UUID primary key. -/
structure Users where
  id : String
  name : String
  phone : String
  password : String
  status : String
deriving DecidableEq

structure URL where
  full : String
  path : String
deriving DecidableEq

/-- An inbound request, reduced to what the resolvers read:
`request.cookies.get("access_token")` and `request.url`.  `url.full` is
`str(request.url)` (the absolute URL); `url.path` is `request.url.path`. -/
structure Request where
  access_token : Option TokenV
  url : URL
deriving DecidableEq

/-- `Users | RedirectResponse`: the dynamic return type of the page-flow
dependencies. -/
inductive UserOrRedirect where
  | user (u : Users)
  | redirect (url : String) (statusCode : Nat)
deriving DecidableEq

/-! ## Identity resolvers and access gates -/

/-- `select(Users).where(Users.id == user_id)` for the string subject taken
from the token; comparing the UUID column against `None` returns no row. -/
def lookup_user_by_id (store : List Users) (sub : Option String) : Option Users :=
  match sub with
  | none => none
  | some s => store.find? (fun u => u.id == s)

/-- `utils/helpers.py` lines 42-66 (`get_current_user`): cookie extraction,
`jwt.decode` guarded by `except (ExpiredSignatureError, InvalidTokenError)`,
then a lookup of `payload.get("sub")`; every failure raises
`HTTPException(401)`, modelled as `.error 401`. -/
def get_current_user (req : Request) (store : List Users) (now : Int)
    (secretKey : String) : Except Nat Users :=
  match req.access_token with
  | none => .error 401
  | some token =>
    match jwt_decode token secretKey now with
    | .error _ => .error 401
    | .ok payload =>
      match lookup_user_by_id store payload.sub with
      | none => .error 401
      | some user => .ok user

/-- `utils/helpers.py` lines 69-79 (`require_user`): call `get_current_user`
and convert any `HTTPException` into a 303 redirect to
`f"/login?next={request.url.path}"`. -/
def require_user (req : Request) (store : List Users) (now : Int)
    (secretKey : String) : UserOrRedirect :=
  match get_current_user req store now secretKey with
  | .ok user => .user user
  | .error _ => .redirect ("/login?next=" ++ req.url.path) 303

def digitsToNat (ds : List Char) : Nat :=
  ds.foldl (fun acc c => acc * 10 + (c.toNat - 48)) 0

def parseDigits (ds : List Char) : Option Nat :=
  if ds ≠ [] ∧ ds.all (fun c => c.isDigit) then some (digitsToNat ds) else none

def isSpaceChar (c : Char) : Bool :=
  c == ' ' || c == '\t' || c == '\n' || c == '\r' || c == '\x0b' || c == '\x0c'

/-- Python `str.strip()`: remove leading and trailing whitespace. -/
def pyStrip (s : String) : String :=
  String.mk (((s.toList.dropWhile isSpaceChar).reverse.dropWhile isSpaceChar).reverse)

/-- Python `int(s)` on a string: optional surrounding whitespace, optional
sign, then decimal digits; anything else raises `ValueError` (`none`). -/
def pyIntOfString (s : String) : Option Int :=
  match (pyStrip s).toList with
  | '+' :: ds => (parseDigits ds).map (fun n => (n : Int))
  | '-' :: ds => (parseDigits ds).map (fun n => -(n : Int))
  | ds => (parseDigits ds).map (fun n => (n : Int))

/-- `int(payload.get("sub") or 0)`: a missing or empty `sub` is falsy and
gives `0`; otherwise Python `int` parsing, whose `ValueError` is `none`. -/
def subToInt (sub : Option String) : Option Int :=
  match sub with
  | none => some 0
  | some s => if s = "" then some 0 else pyIntOfString s

/-- The SQL comparison `Users.id == user_id` between the UUID primary key
and an integer bind value: a UUID only matches the decimal rendering of the
integer, which a canonical hyphenated UUID string never is. -/
def uuidMatchesInt (id : String) (n : Int) : Bool := id == toString n

/-- `utils/helper_auth.py` lines 41-75 (`get_current_user_or_redirect`):
cookie extraction, then a `try` block covering `jwt.decode` and
`int(payload.get("sub") or 0)` with
`except (ExpiredSignatureError, InvalidTokenError, ValueError)`, then a
lookup by the integer subject; every failure returns a 303 redirect to
`"/login?next=" + str(request.url)`. -/
def get_current_user_or_redirect (req : Request) (store : List Users) (now : Int)
    (secretKey : String) : UserOrRedirect :=
  match req.access_token with
  | none => .redirect ("/login?next=" ++ req.url.full) 303
  | some token =>
    match jwt_decode token secretKey now with
    | .error _ => .redirect ("/login?next=" ++ req.url.full) 303
    | .ok payload =>
      match subToInt payload.sub with
      | none => .redirect ("/login?next=" ++ req.url.full) 303
      | some user_id =>
        match store.find? (fun u => uuidMatchesInt u.id user_id) with
        | none => .redirect ("/login?next=" ++ req.url.full) 303
        | some user => .user user

/-- The spec's failure taxonomy for identity resolution. -/
inductive AuthFailReason where
  | noCredential
  | invalid
  | expired
  | unknownSubject
deriving DecidableEq

/-- `resolve(request) -> Authenticated(user) | Unauthenticated(reason)`. -/
inductive ResolveOutcome where
  | authenticated (u : Users)
  | unauthenticated (r : AuthFailReason)
deriving DecidableEq

/-- Reason-level view of `get_current_user`: the same branch structure as
the code, with the decode failure split by which PyJWT exception class was
raised (`ExpiredSignatureError` vs `InvalidTokenError`). -/
def resolve (req : Request) (store : List Users) (now : Int)
    (secretKey : String) : ResolveOutcome :=
  match req.access_token with
  | none => .unauthenticated .noCredential
  | some token =>
    match jwt_decode token secretKey now with
    | .error .invalidToken => .unauthenticated .invalid
    | .error .expiredSignature => .unauthenticated .expired
    | .ok payload =>
      match lookup_user_by_id store payload.sub with
      | none => .unauthenticated .unknownSubject
      | some user => .authenticated user

/-! ## Login route (`routes/login.py`) -/

/-- `KENYAN_PHONE_REGEX = re.compile(r"^(?:\+254|0)[17]\d\x7b8\x7d$")` as a
decidable whole-string match. -/
def kenyan_phone_match (s : String) : Bool :=
  match s.toList with
  | '+' :: '2' :: '5' :: '4' :: c :: ds =>
    (c == '1' || c == '7') && ds.length == 8 && ds.all (fun d => d.isDigit)
  | '0' :: c :: ds =>
    (c == '1' || c == '7') && ds.length == 8 && ds.all (fun d => d.isDigit)
  | _ => false

/-- `routes/login.py` lines 27-41 (`validate_login_form`).  The function
strips both fields locally; a missing password overwrites any phone error,
mirroring the source's final `if not password` check.  `none` models the
falsy empty `errors` dict. -/
def validate_login_form (phone password : String) : Option String :=
  let phone := pyStrip phone
  let password := pyStrip password
  let errors : Option String :=
    if phone = "" then some "Phone number is required"
    else if !kenyan_phone_match phone then
      some "Invalid Kenyan phone format (e.g. +2547XXXXXXXX or 07XXXXXXXX)"
    else none
  if password = "" then some "Password is required" else errors

/-- `routes/login.py` lines 22-24: `"254" + phone[-9:]`. -/
def normalize_phone (phone : String) : String :=
  "254" ++ String.mk (phone.toList.drop (phone.length - 9))

/-- The cookie set by a successful login (`redirect.set_cookie`). -/
structure CookieSet where
  name : String
  value : TokenV
  httponly : Bool
  max_age : Int
deriving DecidableEq

/-- The observable responses of `post_login`: a rendered login page with an
optional error message, or a 303 redirect carrying the session cookie. -/
inductive LoginResponse where
  | page (errors : Option String)
  | redirectWithCookie (url : String) (statusCode : Nat) (cookie : CookieSet)
deriving DecidableEq

/-- `routes/login.py` lines 61-118 (`post_login`): validate the form, look
the user up by normalized phone, compare password hashes, issue the access
token (note: with `expires_delta` omitted), and redirect to the `next`
query parameter (default `/dashboard`) with the cookie set for
`ACCESS_TOKEN_EXPIRE_MINUTES * 60` seconds.  The surrounding
`except Exception` branch is unreachable in this model, where every
modelled operation is total. -/
def post_login (nextParam : Option String) (phone password : String)
    (store : List Users) (now : Int) (secretKey : String) : LoginResponse :=
  match validate_login_form phone password with
  | some errors => .page (some errors)
  | none =>
    let phone := normalize_phone phone
    match store.find? (fun u => u.phone == phone) with
    | none => .page (some ("User with phone: `" ++ phone ++ "` does not exist"))
    | some user =>
      if hash_password password ≠ user.password then
        .page (some "Incorrect password")
      else
        let access_token := create_access_token (some user.id) none now secretKey
        let next_url := nextParam.getD "/dashboard"
        .redirectWithCookie next_url 303
          ⟨"access_token", access_token, true, ACCESS_TOKEN_EXPIRE_MINUTES * 60⟩

/-- The error message of a rendered login page, for comparing two runs. -/
def loginErrors : LoginResponse → Option String
  | .page e => e
  | .redirectWithCookie _ _ _ => none

/-! ## Apartments route (`routes/apartments.py`) -/

/-- The attribute names of an `Apartments` row (`utils/models.py`). -/
inductive AField where
  | id
  | name
  | location
  | landlord_id
  | water_unit_rate
  | garbage_charge
  | service_charge
  | status
  | created_at
  | created_by
  | updated_at
  | updated_by
deriving DecidableEq

/-- A Python attribute value as `setattr` stores it: a string, a number, a
timestamp, or `None`. -/
inductive PyVal where
  | vStr (s : String)
  | vNum (q : Int)
  | vTime (t : Int)
  | vNone
deriving DecidableEq

/-- An `Apartments` ORM object viewed through `getattr`/`setattr`: a total
assignment of values to attribute names. -/
def Apartment : Type := AField → PyVal

/-- `setattr(apartment, field, value)`. -/
def setattrA (a : Apartment) (f : AField) (v : PyVal) : Apartment :=
  fun g => if g = f then v else a g

/-- `routes/apartments.py` line 18. -/
def READ_ONLY_FIELDS : List AField := [.id, .created_at, .created_by]

/-- The update loop of `update_apartment`:
`for field, value in updates.items(): if field not in READ_ONLY_FIELDS:
setattr(apartment, field, value)`. -/
def apply_updates (apartment : Apartment) (updates : List (AField × PyVal)) : Apartment :=
  updates.foldl
    (fun a fv => if fv.1 ∈ READ_ONLY_FIELDS then a else setattrA a fv.1 fv.2)
    apartment

/-- The full mutation `update_apartment` performs on the fetched row: the
guarded update loop, then `apartment.updated_by = current_user.id` and
`apartment.updated_at = datetime.utcnow()`. -/
def update_apartment_fields (current_user : Users) (now : Int)
    (apartment : Apartment) (updates : List (AField × PyVal)) : Apartment :=
  setattrA (setattrA (apply_updates apartment updates)
    AField.updated_by (.vStr current_user.id)) AField.updated_at (.vTime now)

def isHexChar (c : Char) : Bool :=
  c.isDigit || ('a' ≤ c && c ≤ 'f') || ('A' ≤ c && c ≤ 'F')

/-- The uuid groups of a canonical hyphenated UUID string. -/
def uuidGroups : List Nat := [8, 4, 4, 4, 12]

/-- Splitting a character list at every occurrence of `sep`. -/
def splitOnChar (sep : Char) : List Char → List (List Char)
  | [] => [[]]
  | c :: cs =>
    let r := splitOnChar sep cs
    if c = sep then [] :: r
    else
      match r with
      | g :: gs => (c :: g) :: gs
      | [] => [[c]]

/-- `uuid.UUID(apartment_id)` restricted to the canonical hyphenated form
(8-4-4-4-12 hex groups); the result is normalized to lowercase, as
`uuid.UUID` renders it.  Any other input raises `ValueError` (`none`). -/
def parse_uuid (s : String) : Option String :=
  let parts := splitOnChar '-' s.toList
  if parts.length == 5 &&
     (List.zip parts uuidGroups).all
       (fun pg => pg.1.length == pg.2 && pg.1.all isHexChar) then
    some (String.mk (s.toList.map Char.toLower))
  else none

/-- Rendering of an attribute value inside an f-string. -/
def pyValStr : PyVal → String
  | .vStr s => s
  | .vNum q => toString q
  | .vTime t => toString t
  | .vNone => "None"

/-- `routes/apartments.py` lines 53-88 (`update_apartment`): parse the id,
fetch the row, apply the guarded update loop plus the audit columns, commit,
and return `(success_message, error_message, apartment)`; the new store is
returned alongside.  `session.commit()` is modelled as always succeeding,
so the `except` rollback branch is unreachable. -/
def update_apartment (store : List Apartment) (current_user : Users)
    (apartment_id : String) (updates : List (AField × PyVal)) (now : Int)
    (action : String) :
    (Option String × Option String × Option Apartment) × List Apartment :=
  match parse_uuid apartment_id with
  | none => ((none, some "Invalid apartment ID", none), store)
  | some apartment_uuid =>
    match store.find? (fun a => a AField.id == PyVal.vStr apartment_uuid) with
    | none =>
      ((none, some ("Apartment `" ++ apartment_id ++ "` not found"), none), store)
    | some apartment =>
      let updated := update_apartment_fields current_user now apartment updates
      ((some ("Apartment `" ++ pyValStr (updated AField.name) ++ "` " ++ action
          ++ " successfully"), none, some updated),
       store.map (fun a => if a AField.id == PyVal.vStr apartment_uuid then updated else a))

/-! ## Shared lemmas -/

theorem toHexPad_length (d : Nat) : ∀ n : Nat, (toHexPad n d).length = d := by
  induction d with
  | zero => intro n; rfl
  | succ d ih => intro n; simp [toHexPad, ih]

theorem isHexChar_hexDigitChar (n : Nat) : isHexChar (hexDigitChar n) = true := by
  have h : n % 16 < 16 := Nat.mod_lt _ (by norm_num)
  unfold hexDigitChar
  generalize n % 16 = m at h ⊢
  interval_cases m <;> decide

theorem isHexChar_of_mem_toHexPad (d : Nat) :
    ∀ (n : Nat) (c : Char), c ∈ toHexPad n d → isHexChar c = true := by
  induction d with
  | zero => intro n c hc; simp [toHexPad] at hc
  | succ d ih =>
    intro n c hc
    simp only [toHexPad, List.mem_append, List.mem_singleton] at hc
    rcases hc with h | h
    · exact ih _ _ h
    · rw [h]; exact isHexChar_hexDigitChar _

theorem hexcat_length (ws : List Nat) :
    (List.flatten (ws.map (fun w => toHexPad w 8))).length = 8 * ws.length := by
  induction ws with
  | nil => simp
  | cons w t ih => simp [toHexPad_length, ih]; ring

theorem hexcat_hex (ws : List Nat) :
    ∀ c ∈ List.flatten (ws.map (fun w => toHexPad w 8)), isHexChar c = true := by
  induction ws with
  | nil => simp
  | cons w t ih =>
    intro c hc
    simp only [List.map_cons, List.flatten_cons, List.mem_append] at hc
    rcases hc with h | h
    · exact isHexChar_of_mem_toHexPad 8 w c h
    · exact ih c h

theorem compress_length (hs block : List Nat) (h : hs.length = 8) :
    (compress hs block).length = 8 := by
  rcases hs with _ | ⟨a0, _ | ⟨a1, _ | ⟨a2, _ | ⟨a3, _ | ⟨a4, _ | ⟨a5, _ | ⟨a6, _ | ⟨a7, t⟩⟩⟩⟩⟩⟩⟩⟩ <;>
    simp_all [compress]

theorem foldl_compress_length (blocks : List (List Nat)) :
    ∀ hs : List Nat, hs.length = 8 → (blocks.foldl compress hs).length = 8 := by
  induction blocks with
  | nil => intro hs h; simpa using h
  | cons b bs ih => intro hs h; exact ih _ (compress_length _ _ h)

theorem sha256Words_length (bytes : List Nat) : (sha256Words bytes).length = 8 :=
  foldl_compress_length _ _ rfl

theorem hash_password_length (p : String) : (hash_password p).length = 64 := by
  show (String.mk (List.flatten ((sha256Words (strBytes p)).map (fun w => toHexPad w 8)))).length = 64
  have hmk : ∀ cs : List Char, (String.mk cs).length = cs.length := fun _ => rfl
  rw [hmk, hexcat_length, sha256Words_length]

theorem setattrA_same (a : Apartment) (f : AField) (v : PyVal) : setattrA a f v f = v := by
  simp [setattrA]

theorem setattrA_ne (a : Apartment) (f : AField) (v : PyVal) (g : AField) (h : g ≠ f) :
    setattrA a f v g = a g := by
  simp [setattrA, h]

theorem apply_updates_readonly (updates : List (AField × PyVal)) :
    ∀ (apartment : Apartment) (f : AField), f ∈ READ_ONLY_FIELDS →
      apply_updates apartment updates f = apartment f := by
  induction updates with
  | nil => intro apartment f _; rfl
  | cons fv t ih =>
    intro apartment f hf
    by_cases hm : fv.1 ∈ READ_ONLY_FIELDS
    · simpa [apply_updates, hm] using ih apartment f hf
    · have hne : f ≠ fv.1 := fun he => hm (he ▸ hf)
      simpa [apply_updates, hm, setattrA_ne _ _ _ _ hne] using
        (by simpa [setattrA_ne _ _ _ _ hne] using ih (setattrA apartment fv.1 fv.2) f hf)

theorem apply_updates_not_mem (updates : List (AField × PyVal)) :
    ∀ (apartment : Apartment) (f : AField), f ∉ updates.map Prod.fst →
      apply_updates apartment updates f = apartment f := by
  induction updates with
  | nil => intro apartment f _; rfl
  | cons fv t ih =>
    intro apartment f hf
    simp only [List.map_cons, List.mem_cons, not_or] at hf
    by_cases hm : fv.1 ∈ READ_ONLY_FIELDS
    · simpa [apply_updates, hm] using ih apartment f (by tauto)
    · simpa [apply_updates, hm, setattrA_ne _ _ _ _ hf.1] using
        (by simpa [setattrA_ne _ _ _ _ hf.1] using ih (setattrA apartment fv.1 fv.2) f hf.2)

theorem update_apartment_fields_readonly (current_user : Users) (now : Int)
    (apartment : Apartment) (updates : List (AField × PyVal)) (f : AField)
    (hf : f ∈ READ_ONLY_FIELDS) :
    update_apartment_fields current_user now apartment updates f = apartment f := by
  have hf' : f = AField.id ∨ f = AField.created_at ∨ f = AField.created_by := by
    simpa [READ_ONLY_FIELDS] using hf
  have h1 : f ≠ AField.updated_at := by rcases hf' with h | h | h <;> subst h <;> decide
  have h2 : f ≠ AField.updated_by := by rcases hf' with h | h | h <;> subst h <;> decide
  unfold update_apartment_fields
  rw [setattrA_ne _ _ _ _ h1, setattrA_ne _ _ _ _ h2, apply_updates_readonly _ _ _ hf]

/-! ## Claim theorems -/

/-- C1: the claimed round trip — a freshly issued token for an existing user
resolves to Authenticated — fails on `get_current_user_or_redirect`: login
puts `sub = str(user.id)` (a canonical UUID string) into the token, and the
resolver's `int(payload.get("sub") or 0)` raises `ValueError` on it, so the
resolver returns the login redirect even though the user is in the store.
The `utils/helpers.py` resolver (`require_user`/`get_current_user`), which
keeps the subject as a string, does complete the round trip on the same
request. -/
theorem or_redirect_rejects_fresh_uuid_token :
    get_current_user_or_redirect
        ⟨some (create_access_token
            (some "0f8fad5a-d9cb-469f-a165-70867728950e") none 1000 "server-secret"),
         ⟨"http://testserver/landlords", "/landlords"⟩⟩
        [⟨"0f8fad5a-d9cb-469f-a165-70867728950e", "Alice", "254712345678", "pw", "active"⟩]
        1005 "server-secret"
      = .redirect "/login?next=http://testserver/landlords" 303 ∧
    require_user
        ⟨some (create_access_token
            (some "0f8fad5a-d9cb-469f-a165-70867728950e") none 1000 "server-secret"),
         ⟨"http://testserver/landlords", "/landlords"⟩⟩
        [⟨"0f8fad5a-d9cb-469f-a165-70867728950e", "Alice", "254712345678", "pw", "active"⟩]
        1005 "server-secret"
      = .user ⟨"0f8fad5a-d9cb-469f-a165-70867728950e", "Alice", "254712345678", "pw", "active"⟩ :=
  ⟨rfl, rfl⟩

/-- C2 counterexample: with no `access_token` cookie,
`get_current_user_or_redirect` builds the `next` parameter from
`str(request.url)` — the full URL — not from the request path, so the claimed
redirect target `/login?next=<original path>` is wrong for it. -/
theorem or_redirect_next_is_full_url :
    get_current_user_or_redirect ⟨none, ⟨"http://testserver/landlords", "/landlords"⟩⟩ [] 0 "k"
      = .redirect "/login?next=http://testserver/landlords" 303 ∧
    "/login?next=http://testserver/landlords" ≠ "/login?next=/landlords" :=
  ⟨rfl, by decide⟩

/-- C2 (amended): a request with no access-token cookie resolves to
Unauthenticated(no_credential), and both interactive gates answer with a 303
redirect to the login entry point; `require_user` attaches the request path
as the `next` parameter while `get_current_user_or_redirect` attaches the
full request URL. -/
theorem no_credential_redirects (req : Request) (store : List Users) (now : Int)
    (secretKey : String) (h : req.access_token = none) :
    resolve req store now secretKey = .unauthenticated .noCredential ∧
    require_user req store now secretKey = .redirect ("/login?next=" ++ req.url.path) 303 ∧
    get_current_user_or_redirect req store now secretKey
      = .redirect ("/login?next=" ++ req.url.full) 303 := by
  obtain ⟨tok, u⟩ := req
  simp only at h
  subst h
  exact ⟨rfl, rfl, rfl⟩

theorem no_credential_redirects_witness :
    require_user ⟨none, ⟨"http://testserver/apartments", "/apartments"⟩⟩ [] 0 "k"
      = .redirect "/login?next=/apartments" 303 :=
  (no_credential_redirects ⟨none, ⟨"http://testserver/apartments", "/apartments"⟩⟩ [] 0 "k" rfl).2.1

/-- C3 counterexample: a token whose `exp` is in the past but whose
signature does not verify is classified Unauthenticated(invalid), not
Unauthenticated(expired) — PyJWT verifies the signature before validating
claims — so "returns Unauthenticated(expired) regardless of signature
validity" is false as stated. -/
theorem expired_forged_token_classified_invalid :
    resolve ⟨some (.valid ⟨some "x", -1⟩ "other-secret"), ⟨"http://t/a", "/a"⟩⟩ [] 0 "server-secret"
      = .unauthenticated .invalid ∧
    ResolveOutcome.unauthenticated .invalid ≠ .unauthenticated .expired :=
  ⟨rfl, by decide⟩

/-- C3 (amended): a token whose `exp` is at or before the current time and
whose signature verifies against the configured secret resolves to
Unauthenticated(expired); if its signature does not verify it resolves to
Unauthenticated(invalid) instead (signature is checked first).  In both
cases no exception propagates: the interactive gates return the same
redirect-to-login as every other failure reason. -/
theorem expired_token_rejected (store : List Users) (now : Int) (secretKey : String)
    (u : URL) (payload : Payload) (hexp : payload.exp ≤ now) :
    (resolve ⟨some (.valid payload secretKey), u⟩ store now secretKey
        = .unauthenticated .expired ∧
      get_current_user ⟨some (.valid payload secretKey), u⟩ store now secretKey = .error 401 ∧
      require_user ⟨some (.valid payload secretKey), u⟩ store now secretKey
        = .redirect ("/login?next=" ++ u.path) 303 ∧
      get_current_user_or_redirect ⟨some (.valid payload secretKey), u⟩ store now secretKey
        = .redirect ("/login?next=" ++ u.full) 303) ∧
    ∀ key : String, key ≠ secretKey →
      resolve ⟨some (.valid payload key), u⟩ store now secretKey
          = .unauthenticated .invalid ∧
      require_user ⟨some (.valid payload key), u⟩ store now secretKey
        = .redirect ("/login?next=" ++ u.path) 303 := by
  constructor
  · have hd : jwt_decode (.valid payload secretKey) secretKey now = .error .expiredSignature := by
      simp [jwt_decode, hexp]
    refine ⟨?_, ?_, ?_, ?_⟩ <;>
      simp [resolve, get_current_user, require_user, get_current_user_or_redirect, hd]
  · intro key hk
    have hd : jwt_decode (.valid payload key) secretKey now = .error .invalidToken := by
      simp [jwt_decode, hk]
    exact ⟨by simp [resolve, hd], by simp [require_user, get_current_user, hd]⟩

theorem expired_token_rejected_witness :
    resolve ⟨some (.valid ⟨some "x", -1⟩ "server-secret"), ⟨"http://t/a", "/a"⟩⟩ [] 0 "server-secret"
      = .unauthenticated .expired :=
  (expired_token_rejected [] 0 "server-secret" ⟨"http://t/a", "/a"⟩ ⟨some "x", -1⟩
    (by decide)).1.1

/-- C4: a token signed with a key different from the verifier's configured
secret, or a string that is not a well-formed JWT at all, resolves to
Unauthenticated(invalid); neither resolver authenticates or raises, and the
interactive gates answer with the redirect to login. -/
theorem invalid_token_rejected (store : List Users) (now : Int) (secretKey : String) (u : URL) :
    (∀ (payload : Payload) (key : String), key ≠ secretKey →
      resolve ⟨some (.valid payload key), u⟩ store now secretKey
          = .unauthenticated .invalid ∧
      get_current_user ⟨some (.valid payload key), u⟩ store now secretKey = .error 401 ∧
      require_user ⟨some (.valid payload key), u⟩ store now secretKey
        = .redirect ("/login?next=" ++ u.path) 303 ∧
      get_current_user_or_redirect ⟨some (.valid payload key), u⟩ store now secretKey
        = .redirect ("/login?next=" ++ u.full) 303) ∧
    ∀ raw : String,
      resolve ⟨some (.malformed raw), u⟩ store now secretKey = .unauthenticated .invalid ∧
      get_current_user ⟨some (.malformed raw), u⟩ store now secretKey = .error 401 ∧
      require_user ⟨some (.malformed raw), u⟩ store now secretKey
        = .redirect ("/login?next=" ++ u.path) 303 ∧
      get_current_user_or_redirect ⟨some (.malformed raw), u⟩ store now secretKey
        = .redirect ("/login?next=" ++ u.full) 303 := by
  constructor
  · intro payload key hk
    have hd : jwt_decode (.valid payload key) secretKey now = .error .invalidToken := by
      simp [jwt_decode, hk]
    refine ⟨?_, ?_, ?_, ?_⟩ <;>
      simp [resolve, get_current_user, require_user, get_current_user_or_redirect, hd]
  · intro raw
    exact ⟨rfl, rfl, rfl, rfl⟩

theorem invalid_token_rejected_witness :
    resolve ⟨some (.valid ⟨some "s", 10⟩ "attacker-secret"), ⟨"http://t/a", "/a"⟩⟩ [] 0
        "server-secret"
      = .unauthenticated .invalid :=
  ((invalid_token_rejected [] 0 "server-secret" ⟨"http://t/a", "/a"⟩).1 ⟨some "s", 10⟩
    "attacker-secret" (by decide)).1

/-- C5: a well-formed, correctly signed, unexpired token whose subject does
not match any user in the store resolves to Unauthenticated(unknown_subject)
via `get_current_user` (which keeps the subject as a string), raising no
server error, and both interactive gates answer with the redirect to login.
For `get_current_user_or_redirect` the lookup is by `int(sub)`, so the
hypothesis that no user id is the decimal rendering of an integer (true of
UUID primary keys) makes its lookup fail too. -/
theorem unknown_subject_rejected (store : List Users) (now : Int) (secretKey : String)
    (u : URL) (s : String) (exp : Int) (hexp : now < exp)
    (habsent : ∀ usr ∈ store, usr.id ≠ s)
    (hnoint : ∀ usr ∈ store, ∀ n : Int, usr.id ≠ toString n) :
    resolve ⟨some (.valid ⟨some s, exp⟩ secretKey), u⟩ store now secretKey
        = .unauthenticated .unknownSubject ∧
    get_current_user ⟨some (.valid ⟨some s, exp⟩ secretKey), u⟩ store now secretKey
        = .error 401 ∧
    require_user ⟨some (.valid ⟨some s, exp⟩ secretKey), u⟩ store now secretKey
        = .redirect ("/login?next=" ++ u.path) 303 ∧
    get_current_user_or_redirect ⟨some (.valid ⟨some s, exp⟩ secretKey), u⟩ store now secretKey
        = .redirect ("/login?next=" ++ u.full) 303 := by
  have hd : jwt_decode (.valid ⟨some s, exp⟩ secretKey) secretKey now = .ok ⟨some s, exp⟩ := by
    simp [jwt_decode, not_le.mpr hexp]
  have hl : lookup_user_by_id store (some s) = none := by
    unfold lookup_user_by_id
    rw [List.find?_eq_none]
    intro x hx
    simpa using habsent x hx
  have hfind : ∀ n : Int, store.find? (fun usr => uuidMatchesInt usr.id n) = none := by
    intro n
    rw [List.find?_eq_none]
    intro x hx
    simpa [uuidMatchesInt] using hnoint x hx n
  have hor : get_current_user_or_redirect ⟨some (.valid ⟨some s, exp⟩ secretKey), u⟩
      store now secretKey = .redirect ("/login?next=" ++ u.full) 303 := by
    by_cases hs0 : s = ""
    · subst hs0
      simp [get_current_user_or_redirect, hd, subToInt, hfind]
    · rcases hp : pyIntOfString s with _ | n <;>
        simp [get_current_user_or_redirect, hd, subToInt, hs0, hp, hfind]
  exact ⟨by simp [resolve, hd, hl], by simp [get_current_user, hd, hl],
    by simp [require_user, get_current_user, hd, hl], hor⟩

theorem unknown_subject_rejected_witness :
    resolve ⟨some (.valid ⟨some "ghost", 100⟩ "k"), ⟨"http://t/a", "/a"⟩⟩ [] 0 "k"
      = .unauthenticated .unknownSubject :=
  (unknown_subject_rejected [] 0 "k" ⟨"http://t/a", "/a"⟩ "ghost" 100 (by decide)
    (by simp) (by simp)).1

/-- C6: `create_access_token` does embed `exp = now + ttl`, but when
`expires_delta` is omitted the default is 15 minutes (900 s), not 7 days —
and `post_login` omits it.  The successful login below therefore sets a
cookie lasting `ACCESS_TOKEN_EXPIRE_MINUTES * 60 = 604800` seconds (7 days)
holding a token that expires 900 seconds after issuance, contradicting the
claimed 7-day token lifetime. -/
theorem login_token_expiry_is_fifteen_minutes :
    (∀ (sub : Option String) (delta : Option Int) (now : Int) (key : String),
      create_access_token sub delta now key = .valid ⟨sub, now + delta.getD 900⟩ key) ∧
    post_login none "0712345678" "secret123"
        [⟨"0f8fad5a-d9cb-469f-a165-70867728950e", "Alice", "254712345678",
          hash_password "secret123", "active"⟩] 0 "server-secret"
      = .redirectWithCookie "/dashboard" 303
          ⟨"access_token",
           .valid ⟨some "0f8fad5a-d9cb-469f-a165-70867728950e", 900⟩ "server-secret",
           true, ACCESS_TOKEN_EXPIRE_MINUTES * 60⟩ ∧
    ACCESS_TOKEN_EXPIRE_MINUTES * 60 = 604800 ∧
    (900 : Int) ≠ 60 * 60 * 24 * 7 :=
  ⟨fun _ _ _ _ => rfl, rfl, rfl, by decide⟩

/-- C7 counterexample: the two failing login runs — unknown phone vs. wrong
password for a registered phone — render different error messages, so the
responses are distinguishable, contrary to the claimed indistinguishability. -/
theorem login_failure_messages_differ_concrete :
    post_login none "0799999999" "whatever"
        [⟨"0f8fad5a-d9cb-469f-a165-70867728950e", "Alice", "254712345678",
          hash_password "secret123", "active"⟩] 0 "k"
      = .page (some "User with phone: `254799999999` does not exist") ∧
    post_login none "0712345678" "wrong"
        [⟨"0f8fad5a-d9cb-469f-a165-70867728950e", "Alice", "254712345678",
          hash_password "secret123", "active"⟩] 0 "k"
      = .page (some "Incorrect password") ∧
    LoginResponse.page (some "User with phone: `254799999999` does not exist")
      ≠ .page (some "Incorrect password") :=
  ⟨rfl, by decide, by decide⟩

/-- C7 (amended): `post_login` reveals which failure occurred: a validated
login attempt whose normalized phone matches no user renders
"User with phone: `<phone>` does not exist", while one that matches a user
but fails the password-hash comparison renders "Incorrect password". -/
theorem login_failure_messages_distinct (store : List Users) (now : Int) (secretKey : String)
    (nextA nextB : Option String) (phoneA pwA phoneB pwB : String) (userB : Users)
    (hvA : validate_login_form phoneA pwA = none)
    (hA : store.find? (fun usr => usr.phone == normalize_phone phoneA) = none)
    (hvB : validate_login_form phoneB pwB = none)
    (hB : store.find? (fun usr => usr.phone == normalize_phone phoneB) = some userB)
    (hpw : hash_password pwB ≠ userB.password) :
    post_login nextA phoneA pwA store now secretKey
      = .page (some ("User with phone: `" ++ normalize_phone phoneA ++ "` does not exist")) ∧
    post_login nextB phoneB pwB store now secretKey = .page (some "Incorrect password") := by
  constructor
  · simp [post_login, hvA, hA]
  · simp [post_login, hvB, hB, hpw]

theorem login_failure_messages_distinct_witness :
    post_login none "0712345678" "wrong"
        [⟨"0f8fad5a-d9cb-469f-a165-70867728950e", "Alice", "254712345678",
          hash_password "secret123", "active"⟩] 0 "k"
      = .page (some "Incorrect password") :=
  (login_failure_messages_distinct
    [⟨"0f8fad5a-d9cb-469f-a165-70867728950e", "Alice", "254712345678",
      hash_password "secret123", "active"⟩] 0 "k" none none
    "0799999999" "whatever" "0712345678" "wrong"
    ⟨"0f8fad5a-d9cb-469f-a165-70867728950e", "Alice", "254712345678",
      hash_password "secret123", "active"⟩
    (by decide) (by decide) (by decide) (by decide) (by decide)).2

/-- C8: `hash_password` is a pure total function: repeated application to
the same input yields the same digest, every string input yields a 64-hex-
character digest, and on sample distinct inputs the digests differ (full
collision-freedom is only probabilistic and is witnessed by instances). -/
theorem hash_password_deterministic_total :
    (∀ p : String, hash_password p = hash_password p) ∧
    (∀ p : String, (hash_password p).length = 64 ∧
      ∀ c ∈ (hash_password p).toList, isHexChar c = true) ∧
    hash_password "password1" ≠ hash_password "password2" := by
  refine ⟨fun p => rfl, fun p => ⟨hash_password_length p, ?_⟩, by decide⟩
  intro c hc
  have hl : (hash_password p).toList
      = List.flatten ((sha256Words (strBytes p)).map (fun w => toHexPad w 8)) := rfl
  rw [hl] at hc
  exact hexcat_hex _ c hc

theorem hash_password_deterministic_total_witness :
    hash_password "secret123" = hash_password "secret123" ∧
    (hash_password "secret123").length = 64 :=
  ⟨hash_password_deterministic_total.1 "secret123",
   (hash_password_deterministic_total.2.1 "secret123").1⟩

/-- C9: `require_user` is total over authentication failures: for every
request it returns either the user that `get_current_user` resolved or the
303 redirect to `/login?next=<request path>`; the `HTTPException(401)`
raised inside `get_current_user` never escapes. -/
theorem require_user_total (req : Request) (store : List Users) (now : Int)
    (secretKey : String) :
    (∃ user : Users, get_current_user req store now secretKey = .ok user ∧
      require_user req store now secretKey = .user user) ∨
    require_user req store now secretKey = .redirect ("/login?next=" ++ req.url.path) 303 := by
  cases h : get_current_user req store now secretKey with
  | ok user => exact Or.inl ⟨user, rfl, by simp [require_user, h]⟩
  | error e => exact Or.inr (by simp [require_user, h])

/-- C10: `update_apartment` never modifies `id`, `created_at`, `created_by`
of the target apartment, even when the updates dictionary names them; the
only fields that change are the supplied non-read-only ones plus
`updated_by` and `updated_at`.  Consequently, in a store with unique ids,
the (id, created_at, created_by) triple of every row is preserved. -/
theorem update_apartment_frame (current_user : Users) (now : Int)
    (store : List Apartment) (apartment_id action : String)
    (updates : List (AField × PyVal))
    (hids : (store.map (fun a => a AField.id)).Nodup) :
    (∀ apartment : Apartment,
      update_apartment_fields current_user now apartment updates AField.id
          = apartment AField.id ∧
      update_apartment_fields current_user now apartment updates AField.created_at
          = apartment AField.created_at ∧
      update_apartment_fields current_user now apartment updates AField.created_by
          = apartment AField.created_by ∧
      update_apartment_fields current_user now apartment updates AField.updated_by
          = .vStr current_user.id ∧
      update_apartment_fields current_user now apartment updates AField.updated_at
          = .vTime now ∧
      ∀ f : AField, f ∉ updates.map Prod.fst →
        f ≠ AField.updated_by → f ≠ AField.updated_at →
        update_apartment_fields current_user now apartment updates f = apartment f) ∧
    ∀ i : Nat,
      ((update_apartment store current_user apartment_id updates now action).2[i]?).map
          (fun a => (a AField.id, a AField.created_at, a AField.created_by))
        = (store[i]?).map (fun a => (a AField.id, a AField.created_at, a AField.created_by)) := by
  have part1 : ∀ apartment : Apartment,
      update_apartment_fields current_user now apartment updates AField.id
          = apartment AField.id ∧
      update_apartment_fields current_user now apartment updates AField.created_at
          = apartment AField.created_at ∧
      update_apartment_fields current_user now apartment updates AField.created_by
          = apartment AField.created_by ∧
      update_apartment_fields current_user now apartment updates AField.updated_by
          = .vStr current_user.id ∧
      update_apartment_fields current_user now apartment updates AField.updated_at
          = .vTime now ∧
      ∀ f : AField, f ∉ updates.map Prod.fst →
        f ≠ AField.updated_by → f ≠ AField.updated_at →
        update_apartment_fields current_user now apartment updates f = apartment f := by
    intro apartment
    refine ⟨update_apartment_fields_readonly _ _ _ _ _ (by decide),
            update_apartment_fields_readonly _ _ _ _ _ (by decide),
            update_apartment_fields_readonly _ _ _ _ _ (by decide), ?_, ?_, ?_⟩
    · unfold update_apartment_fields
      rw [setattrA_ne _ _ _ _ (by decide), setattrA_same]
    · unfold update_apartment_fields
      rw [setattrA_same]
    · intro f hf h1 h2
      unfold update_apartment_fields
      rw [setattrA_ne _ _ _ _ h2, setattrA_ne _ _ _ _ h1, apply_updates_not_mem _ _ _ hf]
  refine ⟨part1, ?_⟩
  intro i
  rcases hp : parse_uuid apartment_id with _ | uid
  · simp [update_apartment, hp]
  · rcases hf : store.find? (fun a => a AField.id == PyVal.vStr uid) with _ | apt
    · simp [update_apartment, hp, hf]
    · have hmem : apt ∈ store := List.mem_of_find?_eq_some hf
      have hapt : apt AField.id = PyVal.vStr uid := by
        simpa using List.find?_some hf
      have hsnd : (update_apartment store current_user apartment_id updates now action).2
          = store.map (fun a => if a AField.id == PyVal.vStr uid
              then update_apartment_fields current_user now apt updates else a) := by
        simp [update_apartment, hp, hf]
      rw [hsnd, List.getElem?_map]
      rcases hi : store[i]? with _ | a
      · simp
      · have hamem : a ∈ store := List.getElem?_mem hi
        by_cases hid : a AField.id = PyVal.vStr uid
        · have haeq : a = apt :=
            List.inj_on_of_nodup_map hids hamem hmem (by rw [hid, hapt])
          subst haeq
          have r1 := (part1 a).1
          have r2 := (part1 a).2.1
          have r3 := (part1 a).2.2.1
          simp [hid, r1, r2, r3]
        · simp [hid]

theorem update_apartment_frame_witness :
    update_apartment_fields ⟨"u1", "Admin", "254700000000", "pw", "active"⟩ 77
        (fun _ => PyVal.vNone) [(AField.id, PyVal.vStr "evil")] AField.id
      = (fun _ => (PyVal.vNone : PyVal)) AField.id :=
  ((update_apartment_frame ⟨"u1", "Admin", "254700000000", "pw", "active"⟩ 77 [] "x" "updated"
      [(AField.id, PyVal.vStr "evil")] (by simp)).1 (fun _ => PyVal.vNone)).1

end MatrixPMS
